import Mathlib

/-!
Verification of the record-reconciliation pipeline of `Fall25Streamlit.py`
(`load_dues`, `merge_monthly_and_dues`, and the Dearborn day filter).

The tables are pandas DataFrames loaded with `dtype=str`, so every cell is
either a string or NaN; after `pd.to_numeric(..., errors="coerce")` the
identifier cells are numbers or NaN.  A cell is therefore modelled as
`Cell.null` (NaN), `Cell.str` or `Cell.num`.  Identifier values in these
tables are integers, so numeric cells carry `Int`.

A row is an association list from column name to cell; reading an absent
column yields `Cell.null`, which coincides with pandas on every lookup the
pipeline performs (after a left join the payroll columns of an unmatched row
are NaN).  A table carries its column list (needed for the
`"UM ID" in dues_df.columns` test) and its rows.

pandas semantics that the model follows faithfully:
* `pd.merge` matches NaN join keys with NaN join keys (unlike SQL);
* `Series.isin` reports NaN as present when the tested values contain NaN;
* column assignment `df[c] = ...` mutates the frame in place: the model of
  `merge_monthly_and_dues` returns the post-call state of its `df` argument
  (`MergeResult.dfAfter`) alongside the merged output.  `load_monthly` and
  `load_dues` are wrapped in `st.cache_data`, which hands each caller a fresh
  copy, so the in-place coercions on `monthly` and `dues_df` are confined to
  the call and the cached tables are unaffected; they are passed by value.
-/

/-- One pandas cell of a `dtype=str` frame: NaN, a string, or (after
`pd.to_numeric`) a number. -/
inductive Cell where
  | null : Cell
  | str  : String → Cell
  | num  : Int → Cell
deriving DecidableEq, Repr

/-- A row: association list from column name to cell (first binding wins,
as a DataFrame has unique column labels). -/
abbrev Row := List (String × Cell)

/-- Read column `c` of a row; an absent column reads as NaN (see header
comment). -/
def getCell : Row → String → Cell
  | [], _ => .null
  | (c', v) :: rest, c => if c' = c then v else getCell rest c

/-- Write column `c` of a row, replacing an existing binding in place or
appending a new column at the end — the behaviour of `df[c] = ...`. -/
def setCell : Row → String → Cell → Row
  | [], c, v => [(c, v)]
  | (c', v') :: rest, c, v =>
      if c' = c then (c, v) :: rest else (c', v') :: setCell rest c v

/-- Does the row bind column `c`? -/
def bindsCol (r : Row) (c : String) : Bool := r.any (fun p => p.1 = c)

/-- A DataFrame: column labels plus rows. -/
structure Table where
  cols : List String
  rows : List Row
deriving DecidableEq, Repr

/-- The empty DataFrame `pd.DataFrame()`. -/
def emptyTable : Table := { cols := [], rows := [] }

/-!  String helpers modelling Python's `str.lower`, `str.strip` and
`str.startswith` on the ASCII data these tables hold.  They are written
structurally over the character list so that concrete instances reduce in
the kernel. -/

/-- Python `str.lower` (ASCII). -/
def lowerStr (s : String) : String := String.mk (s.data.map Char.toLower)

/-- ASCII whitespace, as stripped by Python `str.strip()`. -/
def isSpaceChar (c : Char) : Bool :=
  c == ' ' || c == '\t' || c == '\n' || c == '\r'

/-- Python `str.strip()` (ASCII whitespace). -/
def stripStr (s : String) : String :=
  String.mk (((s.data.dropWhile isSpaceChar).reverse.dropWhile isSpaceChar).reverse)

/-- Python `str.startswith` / pandas `Series.str.startswith`. -/
def startsWithStr (s p : String) : Bool :=
  s.data.take p.data.length == p.data

/-- Parse a decimal integer string with optional sign, as `pd.to_numeric`
does on the integer-valued identifier columns; surrounding whitespace is
accepted, anything else yields `none` (the `errors="coerce"` NaN). -/
def digitsToNat : List Char → Option Nat
  | [] => none
  | cs =>
      if cs.all Char.isDigit then
        some (cs.foldl (fun a c => 10 * a + (c.toNat - 48)) 0)
      else none

/-- `pd.to_numeric(s, errors="coerce")` on one string cell. -/
def parseNumeric (s : String) : Option Int :=
  match (stripStr s).data with
  | [] => none
  | '-' :: rest => (digitsToNat rest).map (fun n => -(n : Int))
  | '+' :: rest => (digitsToNat rest).map (fun n => (n : Int))
  | cs => (digitsToNat cs).map (fun n => (n : Int))

/-- `pd.to_numeric(x, errors="coerce")` on one cell: NaN stays NaN,
numbers stay numbers, strings parse or coerce to NaN. -/
def toNumericCell : Cell → Cell
  | .null => .null
  | .num n => .num n
  | .str s =>
      match parseNumeric s with
      | some n => .num n
      | none => .null

/-- `df[c] = pd.to_numeric(df[c], errors="coerce")` (lines 46–47, 58). -/
def coerceCol (t : Table) (c : String) : Table :=
  { cols := if c ∈ t.cols then t.cols else t.cols ++ [c],
    rows := t.rows.map (fun r => setCell r c (toNumericCell (getCell r c))) }

/-- Join-key / `isin` equality as pandas implements it: NaN matches NaN,
numbers match equal numbers. -/
def cellKeyEq : Cell → Cell → Bool
  | .null, .null => true
  | .num a, .num b => a == b
  | .str a, .str b => a == b
  | _, _ => false

/-- The payroll rows matching one campus key in
`df.merge(monthly, left_on=id_col, right_on="UM ID", how="left")`. -/
def matchesFor (monthly : Table) (key : Cell) : List Row :=
  monthly.rows.filter (fun m => cellKeyEq key (getCell m "UM ID"))

/-- Rows of the left join: each campus row paired with every matching
payroll row, or kept alone (payroll side NaN) when nothing matches; order
follows the campus side. -/
def leftMergeRows (dfRows : List Row) (idCol : String) (monthly : Table) :
    List Row :=
  dfRows.flatMap (fun r =>
    match matchesFor monthly (getCell r idCol) with
    | [] => [r]
    | ms => ms.map (fun m => r ++ m))

/-- `df.merge(monthly, left_on=id_col, right_on="UM ID", how="left")`
(line 50). -/
def leftMerge (df : Table) (idCol : String) (monthly : Table) : Table :=
  { cols := df.cols ++ monthly.cols.filter (fun c => !(df.cols.contains c)),
    rows := leftMergeRows df.rows idCol monthly }

/-- Line 53, `merged["Job Title"].fillna("").str.lower().str.startswith("leo")`
(the constant LEO_PREFIX): NaN is filled with `""`, which does not start
with `"leo"`.  `Job Title` comes from a `dtype=str` frame, so it is a
string or NaN; a numeric cell cannot occur and is mapped to `false`. -/
def jobTitleMask (r : Row) : Bool :=
  match getCell r "Job Title" with
  | .str s => startsWithStr (lowerStr s) "leo"
  | _ => false

/-- Line 54, `merged["Job Title"].str.strip().ne("")`: on NaN the `.str`
accessor yields NaN, and `NaN.ne("")` is `True`. -/
def jobTitleNonBlank (r : Row) : Bool :=
  match getCell r "Job Title" with
  | .str s => !(stripStr s == "")
  | _ => true

/-- The lecturer filter `merged[mask & merged["Job Title"].str.strip().ne("")]`
(line 54). -/
def lecturerKeep (r : Row) : Bool := jobTitleMask r && jobTitleNonBlank r

/-- The numeric dues identifiers `pd.to_numeric(dues_df["UM ID"], ...)`
(line 58). -/
def duesIds (dues : Table) : List Cell :=
  dues.rows.map (fun d => toNumericCell (getCell d "UM ID"))

/-- The `Dues Status` cell written for one merged row by lines 57–61:
`"Paid"`/`"Not Paid"` by `merged["UM ID"].isin(dues_df["UM ID"])` when the
dues table is non-empty and has a `"UM ID"` column, `"Unknown"` otherwise. -/
def duesStatusCell (dues : Table) (r : Row) : Cell :=
  if dues.rows ≠ [] ∧ "UM ID" ∈ dues.cols then
    .str (if (duesIds dues).any (fun d => cellKeyEq (getCell r "UM ID") d)
          then "Paid" else "Not Paid")
  else .str "Unknown"

/-- Lines 57–61: attach the `Dues Status` column to the merged table.
`dues_df.empty` is `dues.rows = []` for these frames (the error path returns
`pd.DataFrame()`, which has no rows). -/
def addDuesStatus (merged : Table) (dues : Table) : Table :=
  if dues.rows ≠ [] ∧ "UM ID" ∈ dues.cols then
    { cols := if "Dues Status" ∈ merged.cols then merged.cols
              else merged.cols ++ ["Dues Status"],
      rows := merged.rows.map (fun r =>
        setCell r "Dues Status"
          (.str (if (duesIds dues).any (fun d => cellKeyEq (getCell r "UM ID") d)
                 then "Paid" else "Not Paid"))) }
  else
    { cols := if "Dues Status" ∈ merged.cols then merged.cols
              else merged.cols ++ ["Dues Status"],
      rows := merged.rows.map (fun r => setCell r "Dues Status" (.str "Unknown")) }

/-- Result of `merge_monthly_and_dues`: the merged output, together with the
post-call state of the `df` argument (line 46 assigns the coerced identifier
column back into the caller's frame in place). -/
structure MergeResult where
  dfAfter : Table
  merged : Table
deriving DecidableEq, Repr

/-- `merge_monthly_and_dues(df, id_col)` (lines 40–63), with the tables
produced by `load_monthly()` and `load_dues()` passed explicitly. -/
def merge_monthly_and_dues (df : Table) (idCol : String)
    (monthly dues : Table) : MergeResult :=
  let df2 := coerceCol df idCol
  let monthly2 := coerceCol monthly "UM ID"
  let m1 := leftMerge df2 idCol monthly2
  let m2 : Table := { cols := m1.cols, rows := m1.rows.filter lecturerKeep }
  { dfAfter := df2, merged := addDuesStatus m2 dues }

/-- `pd.read_csv` on a dues file: a missing file (`none`) raises
`FileNotFoundError`, a present file yields its table. -/
def readCsv : Option Table → Except String Table
  | none => .error "FileNotFoundError"
  | some t => .ok t

/-- `pd.concat([a, b], ignore_index=True)`: columns are unioned (a cell
absent from a source frame is NaN, which `getCell` already yields for an
unbound column) and rows are appended. -/
def concatTables (a b : Table) : Table :=
  { cols := a.cols ++ b.cols.filter (fun c => !(a.cols.contains c)),
    rows := a.rows ++ b.rows }

/-- `load_dues()` (lines 28–38): read both dues files inside one `try`;
on `FileNotFoundError` from either read, emit `st.warning` and return the
empty frame.  The boolean records whether the warning was emitted; the
function is total, so no exception reaches the caller. -/
def load_dues (aug augG : Option Table) : Table × Bool :=
  match (readCsv aug).bind (fun a => (readCsv augG).map (fun g => concatTables a g)) with
  | .ok t => (t, false)
  | .error _ => (emptyTable, true)

/-- The truthy day codes of the Dearborn view (line 150). -/
def dayCodes : List String := ["M", "T", "W", "R", "F", "X"]

/-- One row's test in `merged[sel_day].isin(["M","T","W","R","F","X"])`
(line 150): NaN is not in the list, so it reads `false`. -/
def dearbornDayKeep (r : Row) (day : String) : Bool :=
  match getCell r day with
  | .str s => dayCodes.contains s
  | _ => false

/-- `day_df = merged[merged[sel_day].isin(["M","T","W","R","F","X"])]`
(line 150). -/
def dearbornDayFilter (t : Table) (day : String) : Table :=
  { cols := t.cols, rows := t.rows.filter (fun r => dearbornDayKeep r day) }

/-! ## Concrete fixtures

Small tables shaped like the deployed ones (an Ann Arbor campus extract keyed
by `"Class Instr ID"`, the payroll extract keyed by `"UM ID"` carrying
`"Job Title"`, and dues extracts keyed by `"UM ID"`). -/

def exCampus : Table :=
  { cols := ["Class Instr ID"],
    rows := [[("Class Instr ID", Cell.str "12345")]] }

def exCampusBad : Table :=
  { cols := ["Class Instr ID"],
    rows := [[("Class Instr ID", Cell.str "abc")]] }

def exMonthly : Table :=
  { cols := ["UM ID", "Job Title"],
    rows := [[("UM ID", Cell.str "12345"), ("Job Title", Cell.str "LEO Lecturer I")]] }

/-- Payroll table whose only row has a non-numeric `UM ID` (null after
coercion) and a lecturer title. -/
def exMonthlyNull : Table :=
  { cols := ["UM ID", "Job Title"],
    rows := [[("UM ID", Cell.str "xyz"), ("Job Title", Cell.str "LEO Lecturer I")]] }

/-- Payroll table whose only row has a lecturer title with leading
whitespace. -/
def exMonthlyWs : Table :=
  { cols := ["UM ID", "Job Title"],
    rows := [[("UM ID", Cell.str "12345"), ("Job Title", Cell.str "  LEO Lecturer I")]] }

def exDues : Table :=
  { cols := ["UM ID"], rows := [[("UM ID", Cell.str "12345")]] }

/-- Dues table whose identifier column is labelled `"UMID"`, not `"UM ID"`. -/
def exDuesNoCol : Table :=
  { cols := ["UMID"], rows := [[("UMID", Cell.str "12345")]] }

/-- Dues table whose only `UM ID` is non-numeric (null after coercion). -/
def exDuesNull : Table :=
  { cols := ["UM ID"], rows := [[("UM ID", Cell.str "zzz")]] }

/-! ## Basic lemmas about rows and coercion -/

theorem getCell_setCell_same (r : Row) (c : String) (v : Cell) :
    getCell (setCell r c v) c = v := by
  induction r with
  | nil => simp [setCell, getCell]
  | cons p rest ih =>
      obtain ⟨c', v'⟩ := p
      by_cases h : c' = c <;> simp [setCell, getCell, h, ih]

theorem getCell_setCell_ne (r : Row) (c c' : String) (v : Cell) (h : c' ≠ c) :
    getCell (setCell r c v) c' = getCell r c' := by
  have h2 : c ≠ c' := Ne.symm h
  induction r with
  | nil => simp [setCell, getCell, h2]
  | cons p rest ih =>
      obtain ⟨c0, v0⟩ := p
      by_cases h0 : c0 = c
      · subst h0
        simp [setCell, getCell, h2]
      · simp [setCell, getCell, h0, ih]

theorem setCell_setCell_same (r : Row) (c : String) (v w : Cell) :
    setCell (setCell r c v) c w = setCell r c w := by
  induction r with
  | nil => simp [setCell]
  | cons p rest ih =>
      obtain ⟨c0, v0⟩ := p
      by_cases h : c0 = c <;> simp [setCell, h, ih]

theorem bindsCol_setCell (r : Row) (c : String) (v : Cell) :
    bindsCol (setCell r c v) c = true := by
  induction r with
  | nil => simp [setCell, bindsCol]
  | cons p rest ih =>
      obtain ⟨c0, v0⟩ := p
      by_cases h : c0 = c
      · simp [setCell, bindsCol, h]
      · simp only [setCell, h, if_false, bindsCol, List.any_cons]
        have := ih
        simp [bindsCol] at this
        simp [this]

theorem getCell_append_of_binds (r m : Row) (c : String)
    (h : bindsCol r c = true) : getCell (r ++ m) c = getCell r c := by
  induction r with
  | nil => simp [bindsCol] at h
  | cons p rest ih =>
      obtain ⟨c0, v0⟩ := p
      by_cases h0 : c0 = c
      · simp [getCell, h0]
      · simp [bindsCol, h0] at h
        simpa [getCell, h0] using ih (by simpa [bindsCol] using h)

theorem toNumericCell_idem (x : Cell) :
    toNumericCell (toNumericCell x) = toNumericCell x := by
  cases x with
  | null => rfl
  | num n => rfl
  | str s =>
      cases h : parseNumeric s <;> simp [toNumericCell, h]

theorem Table.eq_of (a b : Table) (h1 : a.cols = b.cols)
    (h2 : a.rows = b.rows) : a = b := by
  cases a; cases b; cases h1; cases h2; rfl

theorem coerceRow_idem (r : Row) (c : String) :
    setCell (setCell r c (toNumericCell (getCell r c))) c
        (toNumericCell (getCell (setCell r c (toNumericCell (getCell r c))) c))
      = setCell r c (toNumericCell (getCell r c)) := by
  rw [getCell_setCell_same, toNumericCell_idem, setCell_setCell_same]

theorem coerceCol_idem (t : Table) (c : String) :
    coerceCol (coerceCol t c) c = coerceCol t c := by
  have hc : c ∈ (coerceCol t c).cols := by
    by_cases h : c ∈ t.cols <;> simp [coerceCol, h]
  refine Table.eq_of _ _ ?_ ?_
  · show (if c ∈ (coerceCol t c).cols then (coerceCol t c).cols
          else (coerceCol t c).cols ++ [c]) = (coerceCol t c).cols
    rw [if_pos hc]
  · show List.map _ (coerceCol t c).rows = (coerceCol t c).rows
    show List.map _ (List.map _ t.rows) = List.map _ t.rows
    rw [List.map_map]
    exact List.map_congr_left (fun r _ => coerceRow_idem r c)

/-! ## Characterizing the pipeline stages -/

theorem cellKeyEq_right_ne_null (x y : Cell) (hxy : cellKeyEq x y = true)
    (hy : y ≠ Cell.null) : x ≠ Cell.null := by
  cases x <;> cases y <;> simp_all [cellKeyEq]

theorem mem_leftMergeRows (dfRows : List Row) (idCol : String)
    (monthly : Table) (rr : Row) :
    rr ∈ leftMergeRows dfRows idCol monthly ↔
      ∃ r ∈ dfRows,
        (matchesFor monthly (getCell r idCol) = [] ∧ rr = r) ∨
        (∃ m ∈ matchesFor monthly (getCell r idCol), rr = r ++ m) := by
  unfold leftMergeRows
  rw [List.mem_flatMap]
  constructor
  · rintro ⟨r, hr, hmem⟩
    refine ⟨r, hr, ?_⟩
    cases hm : matchesFor monthly (getCell r idCol) with
    | nil =>
        rw [hm] at hmem
        have : rr = r := List.mem_singleton.mp hmem
        exact Or.inl ⟨rfl, this⟩
    | cons m0 ms =>
        rw [hm] at hmem
        have : rr ∈ List.map (fun m => r ++ m) (m0 :: ms) := hmem
        rw [List.mem_map] at this
        obtain ⟨m, hm1, hm2⟩ := this
        exact Or.inr ⟨m, hm1, hm2.symm⟩
  · rintro ⟨r, hr, hcase⟩
    refine ⟨r, hr, ?_⟩
    rcases hcase with ⟨hm, hrr⟩ | ⟨m, hm, hrr⟩
    · cases he : matchesFor monthly (getCell r idCol) with
      | nil => exact List.mem_singleton.mpr hrr
      | cons m0 ms => rw [he] at hm; cases hm
    · cases he : matchesFor monthly (getCell r idCol) with
      | nil => rw [he] at hm; cases hm
      | cons m0 ms =>
          rw [he] at hm
          exact List.mem_map.mpr ⟨m, hm, hrr.symm⟩

theorem addDuesStatus_rows (m dues : Table) :
    (addDuesStatus m dues).rows
      = m.rows.map (fun r => setCell r "Dues Status" (duesStatusCell dues r)) := by
  by_cases h : dues.rows ≠ [] ∧ "UM ID" ∈ dues.cols <;>
    simp [addDuesStatus, duesStatusCell, h]

theorem mem_merged_iff (df : Table) (idCol : String) (monthly dues : Table)
    (rr : Row) :
    rr ∈ (merge_monthly_and_dues df idCol monthly dues).merged.rows ↔
      ∃ r1, (r1 ∈ leftMergeRows (coerceCol df idCol).rows idCol
                    (coerceCol monthly "UM ID")
             ∧ lecturerKeep r1 = true)
            ∧ rr = setCell r1 "Dues Status" (duesStatusCell dues r1) := by
  show rr ∈ (addDuesStatus _ dues).rows ↔ _
  rw [addDuesStatus_rows, List.mem_map]
  constructor
  · rintro ⟨r1, hr1, hrr⟩
    rw [List.mem_filter] at hr1
    exact ⟨r1, ⟨hr1.1, hr1.2⟩, hrr.symm⟩
  · rintro ⟨r1, ⟨hmem, hkeep⟩, hrr⟩
    exact ⟨r1, List.mem_filter.mpr ⟨hmem, hkeep⟩, hrr.symm⟩

theorem lecturerKeep_iff (r : Row) :
    lecturerKeep r = true ↔
      ∃ s, getCell r "Job Title" = Cell.str s
           ∧ startsWithStr (lowerStr s) "leo" = true ∧ stripStr s ≠ "" := by
  unfold lecturerKeep jobTitleMask jobTitleNonBlank
  cases h : getCell r "Job Title" with
  | null => simp
  | num n => simp
  | str s =>
      simp only [Bool.and_eq_true, Bool.not_eq_true', beq_eq_false_iff_ne]
      constructor
      · rintro ⟨h1, h2⟩
        exact ⟨s, rfl, h1, h2⟩
      · rintro ⟨s', hs', h1, h2⟩
        cases hs'
        exact ⟨h1, h2⟩

theorem load_dues_missing (aug augG : Option Table)
    (h : aug = none ∨ augG = none) :
    load_dues aug augG = (emptyTable, true) := by
  rcases h with h | h
  · subst h; rfl
  · subst h
    cases aug <;> rfl

theorem duesStatus_unknown_of_no_data (df : Table) (idCol : String)
    (monthly dues : Table) (h : dues.rows = [] ∨ "UM ID" ∉ dues.cols) :
    ∀ rr ∈ (merge_monthly_and_dues df idCol monthly dues).merged.rows,
      getCell rr "Dues Status" = Cell.str "Unknown" := by
  intro rr hrr
  rw [mem_merged_iff] at hrr
  obtain ⟨r1, _, hrr⟩ := hrr
  subst hrr
  rw [getCell_setCell_same]
  unfold duesStatusCell
  rw [if_neg]
  tauto

theorem getCell_duesStatus_of_data (df : Table) (idCol : String)
    (monthly dues : Table) (hne : dues.rows ≠ []) (hcol : "UM ID" ∈ dues.cols) :
    ∀ rr ∈ (merge_monthly_and_dues df idCol monthly dues).merged.rows,
      getCell rr "Dues Status"
        = Cell.str (if (duesIds dues).any (fun d => cellKeyEq (getCell rr "UM ID") d)
                    then "Paid" else "Not Paid") := by
  intro rr hrr
  rw [mem_merged_iff] at hrr
  obtain ⟨r1, _, hrr⟩ := hrr
  subst hrr
  rw [getCell_setCell_same,
    getCell_setCell_ne _ _ _ _ (by decide : ("UM ID" : String) ≠ "Dues Status")]
  unfold duesStatusCell
  rw [if_pos ⟨hne, hcol⟩]

/-! ## Claim theorems -/

/-- C1 (counterexample): a payroll row whose Job Title has leading whitespace
before "LEO" is dropped by the lecturer filter, although that title trimmed
and lower-cased is non-empty and begins with "leo" — refuting the claim that
such a row is retained. -/
theorem lecturer_filter_trim_counterexample :
    startsWithStr (lowerStr (stripStr "  LEO Lecturer I")) "leo" = true ∧
    stripStr "  LEO Lecturer I" ≠ "" ∧
    (merge_monthly_and_dues exCampus "Class Instr ID" exMonthlyWs
        emptyTable).merged.rows = [] := by
  refine ⟨by decide, by decide, by decide⟩

/-- C1 (amended): a merged row passes the lecturer filter iff its Job Title is
a string whose lower-casing — without any trimming — starts with "leo" and
whose trimmed value is non-empty; consequently every row of the merged output
carries such a title, so blank, null or non-matching titles never survive,
and a title with leading whitespace before "LEO" is dropped. -/
theorem lecturer_filter_characterization :
    (∀ r : Row, lecturerKeep r = true ↔
        ∃ s, getCell r "Job Title" = Cell.str s
             ∧ startsWithStr (lowerStr s) "leo" = true ∧ stripStr s ≠ "") ∧
    (∀ (df : Table) (idCol : String) (monthly dues : Table) (rr : Row),
        rr ∈ (merge_monthly_and_dues df idCol monthly dues).merged.rows →
        ∃ s, getCell rr "Job Title" = Cell.str s
             ∧ startsWithStr (lowerStr s) "leo" = true ∧ stripStr s ≠ "") := by
  refine ⟨lecturerKeep_iff, ?_⟩
  intro df idCol monthly dues rr hrr
  rw [mem_merged_iff] at hrr
  obtain ⟨r1, ⟨_, hkeep⟩, hrr⟩ := hrr
  subst hrr
  rw [getCell_setCell_ne _ _ _ _
    (by decide : ("Job Title" : String) ≠ "Dues Status")]
  exact (lecturerKeep_iff r1).mp hkeep

/-- Witness for C1 (amended): the retained row of the `exCampus`/`exMonthly`
run indeed carries a lecturer title. -/
theorem lecturer_filter_characterization_witness :
    ∃ s, getCell [("Class Instr ID", Cell.num 12345), ("UM ID", Cell.num 12345),
          ("Job Title", Cell.str "LEO Lecturer I"),
          ("Dues Status", Cell.str "Unknown")] "Job Title" = Cell.str s
         ∧ startsWithStr (lowerStr s) "leo" = true ∧ stripStr s ≠ "" :=
  lecturer_filter_characterization.2 exCampus "Class Instr ID" exMonthly
    emptyTable _ (by decide)

/-- C7: reconciliation is deterministic (it is a pure function of its inputs)
and idempotent: re-running `merge_monthly_and_dues` on the state left by a
first run — the same payroll and dues tables, and the campus table as the
first call left it — reproduces the first result exactly, rows, values and
order included. -/
theorem merge_idempotent (df : Table) (idCol : String) (monthly dues : Table) :
    merge_monthly_and_dues
        (merge_monthly_and_dues df idCol monthly dues).dfAfter idCol monthly dues
      = merge_monthly_and_dues df idCol monthly dues := by
  show merge_monthly_and_dues (coerceCol df idCol) idCol monthly dues = _
  unfold merge_monthly_and_dues
  rw [coerceCol_idem]

/-- C8: the Dearborn day filter retains a merged row iff its day-indicator
value for the selected day is one of the strings M, T, W, R, F, X; a Monday
Indicator of "M" counts as present for Monday and an empty-string indicator
does not. -/
theorem dearborn_day_filter_iff :
    (∀ (t : Table) (day : String) (r : Row),
        r ∈ (dearbornDayFilter t day).rows ↔
          r ∈ t.rows ∧
            getCell r day ∈ [Cell.str "M", Cell.str "T", Cell.str "W",
                             Cell.str "R", Cell.str "F", Cell.str "X"]) ∧
    dearbornDayKeep [("Monday", Cell.str "M")] "Monday" = true ∧
    dearbornDayKeep [("Monday", Cell.str "")] "Monday" = false := by
  refine ⟨?_, by decide, by decide⟩
  intro t day r
  show r ∈ t.rows.filter (fun r => dearbornDayKeep r day) ↔ _
  rw [List.mem_filter]
  refine and_congr_right (fun _ => ?_)
  cases h : getCell r day with
  | null => simp [dearbornDayKeep, h]
  | num n => simp [dearbornDayKeep, h]
  | str s => simp [dearbornDayKeep, h, dayCodes]

/-- Witness for C8: a Dearborn row with Monday Indicator "M" survives the
Monday filter. -/
theorem dearborn_day_filter_witness :
    [("Monday", Cell.str "M")] ∈ (dearbornDayFilter
        { cols := ["Monday"],
          rows := [[("Monday", Cell.str "M")], [("Monday", Cell.str "")]] }
        "Monday").rows :=
  (dearborn_day_filter_iff.1 _ "Monday" _).mpr ⟨by decide, by decide⟩

/-- C3: when the combined dues table is non-empty and has a "UM ID" column,
every output row's Dues Status is "Paid" exactly when its numeric identifier
is a member of the dues table's numeric UM ID set and "Not Paid" otherwise;
and when no dues table could be loaded (a dues file was missing), every
output row's Dues Status is "Unknown". -/
theorem dues_status_assignment (df : Table) (idCol : String)
    (monthly dues : Table) :
    (dues.rows ≠ [] → "UM ID" ∈ dues.cols →
      ∀ rr ∈ (merge_monthly_and_dues df idCol monthly dues).merged.rows,
        getCell rr "Dues Status"
          = Cell.str (if (duesIds dues).any
                          (fun d => cellKeyEq (getCell rr "UM ID") d)
                      then "Paid" else "Not Paid")) ∧
    (∀ aug augG : Option Table, aug = none ∨ augG = none →
      ∀ rr ∈ (merge_monthly_and_dues df idCol monthly
                (load_dues aug augG).1).merged.rows,
        getCell rr "Dues Status" = Cell.str "Unknown") := by
  constructor
  · intro hne hcol
    exact getCell_duesStatus_of_data df idCol monthly dues hne hcol
  · intro aug augG h
    have hl := load_dues_missing aug augG h
    exact duesStatus_unknown_of_no_data df idCol monthly _
      (Or.inl (by rw [hl]; rfl))

/-- Witness for C3: with the paid-up dues table `exDues`, the retained row of
the `exCampus`/`exMonthly` run is marked "Paid". -/
theorem dues_status_assignment_witness :
    getCell [("Class Instr ID", Cell.num 12345), ("UM ID", Cell.num 12345),
             ("Job Title", Cell.str "LEO Lecturer I"),
             ("Dues Status", Cell.str "Paid")] "Dues Status"
      = Cell.str "Paid" :=
  ((dues_status_assignment exCampus "Class Instr ID" exMonthly exDues).1
      (by decide) (by decide) _ (by decide)).trans (by decide)

/-- C4 (counterexample): both dues files load successfully (no warning) and
the combined dues table is non-empty, yet — because its identifier column is
labelled "UMID" rather than "UM ID" — every output row is marked "Unknown";
so "Unknown" does not occur only when no dues data could be loaded. -/
theorem dues_unknown_counterexample :
    (load_dues (some exDuesNoCol) (some emptyTable)).2 = false ∧
    (load_dues (some exDuesNoCol) (some emptyTable)).1.rows ≠ [] ∧
    (merge_monthly_and_dues exCampus "Class Instr ID" exMonthly
        (load_dues (some exDuesNoCol) (some emptyTable)).1).merged.rows
      = [[("Class Instr ID", Cell.num 12345), ("UM ID", Cell.num 12345),
          ("Job Title", Cell.str "LEO Lecturer I"),
          ("Dues Status", Cell.str "Unknown")]] := by
  refine ⟨by decide, by decide, by decide⟩

/-- C4 (amended): every output row's Dues Status is exactly one of "Paid",
"Not Paid", "Unknown"; it is "Unknown" precisely when the combined dues
table is empty or lacks a "UM ID" column (load failure yields the empty
table, but a loaded table without rows or without that column degrades the
same way), and otherwise it is "Paid" or "Not Paid". -/
theorem dues_status_partition (df : Table) (idCol : String)
    (monthly dues : Table) :
    ∀ rr ∈ (merge_monthly_and_dues df idCol monthly dues).merged.rows,
      (getCell rr "Dues Status" = Cell.str "Paid"
        ∨ getCell rr "Dues Status" = Cell.str "Not Paid"
        ∨ getCell rr "Dues Status" = Cell.str "Unknown") ∧
      (getCell rr "Dues Status" = Cell.str "Unknown"
        ↔ (dues.rows = [] ∨ "UM ID" ∉ dues.cols)) := by
  intro rr hrr
  by_cases h : dues.rows ≠ [] ∧ "UM ID" ∈ dues.cols
  · have hs := getCell_duesStatus_of_data df idCol monthly dues h.1 h.2 rr hrr
    constructor
    · by_cases hm : (duesIds dues).any (fun d => cellKeyEq (getCell rr "UM ID") d)
      · exact Or.inl (by rw [hs, if_pos hm])
      · exact Or.inr (Or.inl (by rw [hs, if_neg hm]))
    · constructor
      · intro hu
        rw [hs] at hu
        by_cases hm : (duesIds dues).any (fun d => cellKeyEq (getCell rr "UM ID") d) <;>
          simp [hm] at hu
      · intro hcontra
        rcases hcontra with hc | hc
        · exact absurd hc h.1
        · exact absurd h.2 hc
  · have hnd : dues.rows = [] ∨ "UM ID" ∉ dues.cols := by tauto
    have hs := duesStatus_unknown_of_no_data df idCol monthly dues hnd rr hrr
    exact ⟨Or.inr (Or.inr hs), by simp [hs, hnd]⟩

/-- Witness for C4 (amended): the retained row of a run with no dues data is
"Unknown", and the partition holds for it. -/
theorem dues_status_partition_witness :
    (getCell [("Class Instr ID", Cell.num 12345), ("UM ID", Cell.num 12345),
              ("Job Title", Cell.str "LEO Lecturer I"),
              ("Dues Status", Cell.str "Unknown")] "Dues Status"
        = Cell.str "Paid"
      ∨ getCell [("Class Instr ID", Cell.num 12345), ("UM ID", Cell.num 12345),
              ("Job Title", Cell.str "LEO Lecturer I"),
              ("Dues Status", Cell.str "Unknown")] "Dues Status"
        = Cell.str "Not Paid"
      ∨ getCell [("Class Instr ID", Cell.num 12345), ("UM ID", Cell.num 12345),
              ("Job Title", Cell.str "LEO Lecturer I"),
              ("Dues Status", Cell.str "Unknown")] "Dues Status"
        = Cell.str "Unknown") ∧
    (getCell [("Class Instr ID", Cell.num 12345), ("UM ID", Cell.num 12345),
              ("Job Title", Cell.str "LEO Lecturer I"),
              ("Dues Status", Cell.str "Unknown")] "Dues Status"
        = Cell.str "Unknown"
      ↔ (emptyTable.rows = [] ∨ "UM ID" ∉ emptyTable.cols)) :=
  dues_status_partition exCampus "Class Instr ID" exMonthly emptyTable
    _ (by decide)

/-- C5: when a dues source file is missing, `load_dues` emits the warning and
returns the empty table instead of raising (it is total, so no exception
reaches the caller), and `merge_monthly_and_dues` then marks every retained
row's Dues Status "Unknown". -/
theorem missing_dues_degrades_to_unknown (df : Table) (idCol : String)
    (monthly : Table) (aug augG : Option Table)
    (h : aug = none ∨ augG = none) :
    (load_dues aug augG).2 = true ∧ (load_dues aug augG).1 = emptyTable ∧
    ∀ rr ∈ (merge_monthly_and_dues df idCol monthly
              (load_dues aug augG).1).merged.rows,
      getCell rr "Dues Status" = Cell.str "Unknown" := by
  have hl := load_dues_missing aug augG h
  refine ⟨by rw [hl], by rw [hl], ?_⟩
  exact duesStatus_unknown_of_no_data df idCol monthly _
    (Or.inl (by rw [hl]; rfl))

/-- Witness for C5: both dues files absent — the warning fires, the dues
table is empty, and the retained row is marked "Unknown". -/
theorem missing_dues_degrades_witness :
    (load_dues none none).2 = true ∧
    getCell [("Class Instr ID", Cell.num 12345), ("UM ID", Cell.num 12345),
             ("Job Title", Cell.str "LEO Lecturer I"),
             ("Dues Status", Cell.str "Unknown")] "Dues Status"
      = Cell.str "Unknown" :=
  ⟨(missing_dues_degrades_to_unknown exCampus "Class Instr ID" exMonthly
      none none (Or.inl rfl)).1,
   (missing_dues_degrades_to_unknown exCampus "Class Instr ID" exMonthly
      none none (Or.inl rfl)).2.2 _ (by decide)⟩

/-- C9: when exactly one of the two dues files is missing, `load_dues`
returns the empty table — the data from the file that does exist is
discarded — and every retained row is marked "Unknown", exactly as when both
files are absent. -/
theorem partial_dues_discarded (df : Table) (idCol : String) (monthly : Table)
    (aug augG : Option Table)
    (h : (aug = none ∧ augG ≠ none) ∨ (aug ≠ none ∧ augG = none)) :
    load_dues aug augG = (emptyTable, true) ∧
    ∀ rr ∈ (merge_monthly_and_dues df idCol monthly
              (load_dues aug augG).1).merged.rows,
      getCell rr "Dues Status" = Cell.str "Unknown" := by
  have h2 : aug = none ∨ augG = none := by tauto
  have hl := load_dues_missing aug augG h2
  refine ⟨hl, ?_⟩
  exact duesStatus_unknown_of_no_data df idCol monthly _
    (Or.inl (by rw [hl]; rfl))

/-- Witness for C9: the first dues file is missing while the second exists
with a paid member; the member's data is discarded and the retained row —
whose identifier is in that file — is still "Unknown". -/
theorem partial_dues_discarded_witness :
    load_dues none (some exDues) = (emptyTable, true) ∧
    getCell [("Class Instr ID", Cell.num 12345), ("UM ID", Cell.num 12345),
             ("Job Title", Cell.str "LEO Lecturer I"),
             ("Dues Status", Cell.str "Unknown")] "Dues Status"
      = Cell.str "Unknown" :=
  ⟨(partial_dues_discarded exCampus "Class Instr ID" exMonthly
      none (some exDues) (Or.inl ⟨rfl, by decide⟩)).1,
   (partial_dues_discarded exCampus "Class Instr ID" exMonthly
      none (some exDues) (Or.inl ⟨rfl, by decide⟩)).2 _ (by decide)⟩

/-- C2 (counterexample): the campus identifier "abc" coerces to null, but the
left join matches null keys with null keys, so it picks up the payroll row
whose UM ID is also non-numeric — Job Title "LEO Lecturer I" — and the row
survives the lecturer filter instead of being dropped. -/
theorem null_id_match_counterexample :
    (merge_monthly_and_dues exCampusBad "Class Instr ID" exMonthlyNull
        emptyTable).merged.rows
      = [[("Class Instr ID", Cell.null), ("UM ID", Cell.null),
          ("Job Title", Cell.str "LEO Lecturer I"),
          ("Dues Status", Cell.str "Unknown")]] := by
  decide

/-- C2 (amended): a campus row whose identifier coerces to null matches
exactly the payroll rows whose UM ID also coerces to null; hence when every
payroll UM ID coerces to a number (and the campus table carries no Job Title
column of its own), no output row has a null identifier — a null-identifier
row finds no match, gets a blank Job Title, and is dropped by the lecturer
filter. -/
theorem null_id_never_matches (df : Table) (idCol : String)
    (monthly dues : Table)
    (hid1 : idCol ≠ "Job Title") (hid2 : idCol ≠ "Dues Status")
    (hdf : ∀ r ∈ df.rows, getCell r "Job Title" = Cell.null)
    (hm : ∀ m ∈ monthly.rows, toNumericCell (getCell m "UM ID") ≠ Cell.null) :
    ∀ rr ∈ (merge_monthly_and_dues df idCol monthly dues).merged.rows,
      getCell rr idCol ≠ Cell.null := by
  intro rr hrr
  rw [mem_merged_iff] at hrr
  obtain ⟨r1, ⟨hmem, hkeep⟩, hrr⟩ := hrr
  subst hrr
  rw [getCell_setCell_ne _ _ _ _ hid2]
  rw [mem_leftMergeRows] at hmem
  obtain ⟨r, hr, hcase⟩ := hmem
  have hr2 : ∃ r0 ∈ df.rows,
      setCell r0 idCol (toNumericCell (getCell r0 idCol)) = r := by
    simpa [coerceCol] using hr
  obtain ⟨r0, hr0, hre⟩ := hr2
  rcases hcase with ⟨_, hrr1⟩ | ⟨m', hm', hrr1⟩
  · exfalso
    obtain ⟨s, hs, _⟩ := (lecturerKeep_iff r1).mp hkeep
    rw [hrr1, ← hre, getCell_setCell_ne _ _ _ _ (Ne.symm hid1),
      hdf r0 hr0] at hs
    cases hs
  · have hmf := hm'
    unfold matchesFor at hmf
    rw [List.mem_filter] at hmf
    obtain ⟨hmm, hkey⟩ := hmf
    have hmm2 : ∃ m0 ∈ monthly.rows,
        setCell m0 "UM ID" (toNumericCell (getCell m0 "UM ID")) = m' := by
      simpa [coerceCol] using hmm
    obtain ⟨m0, hm0, hme⟩ := hmm2
    have hkey2 : getCell m' "UM ID" ≠ Cell.null := by
      rw [← hme, getCell_setCell_same]
      exact hm m0 hm0
    have hne := cellKeyEq_right_ne_null _ _ hkey hkey2
    rw [hrr1, getCell_append_of_binds]
    · exact hne
    · rw [← hre]
      exact bindsCol_setCell r0 idCol _

/-- Witness for C2 (amended): in the all-numeric `exCampus`/`exMonthly` run,
the retained row's identifier is non-null. -/
theorem null_id_never_matches_witness :
    getCell [("Class Instr ID", Cell.num 12345), ("UM ID", Cell.num 12345),
             ("Job Title", Cell.str "LEO Lecturer I"),
             ("Dues Status", Cell.str "Unknown")] "Class Instr ID"
      ≠ Cell.null :=
  null_id_never_matches exCampus "Class Instr ID" exMonthly emptyTable
    (by decide) (by decide) (by decide) (by decide) _ (by decide)

/-- C6 (counterexample): after a call, the campus table passed as `df` no
longer holds the same values — its identifier column has been overwritten in
place ("abc" became NaN). -/
theorem input_mutation_counterexample :
    (merge_monthly_and_dues exCampusBad "Class Instr ID" exMonthlyNull
        emptyTable).dfAfter ≠ exCampusBad := by
  decide

/-- C6 (amended): the merged output is a fresh table and the cached payroll
and dues tables are untouched (each call coerces a per-call copy), but the
campus table passed as `df` is mutated in place: after a call it has the
same number of rows, its identifier column holds the numeric coercion of its
previous values, and every other column is unchanged. -/
theorem merge_frame_effect (df : Table) (idCol : String)
    (monthly dues : Table) :
    ((merge_monthly_and_dues df idCol monthly dues).dfAfter.rows.length
        = df.rows.length) ∧
    ∀ i : Nat,
      ∀ h1 : i < (merge_monthly_and_dues df idCol monthly dues).dfAfter.rows.length,
      ∀ h2 : i < df.rows.length,
      (getCell ((merge_monthly_and_dues df idCol monthly dues).dfAfter.rows[i])
          idCol = toNumericCell (getCell (df.rows[i]) idCol)) ∧
      ∀ c : String, c ≠ idCol →
        getCell ((merge_monthly_and_dues df idCol monthly dues).dfAfter.rows[i]) c
          = getCell (df.rows[i]) c := by
  constructor
  · show (coerceCol df idCol).rows.length = df.rows.length
    simp [coerceCol]
  · intro i h1 h2
    have key : (merge_monthly_and_dues df idCol monthly dues).dfAfter.rows[i]
        = setCell (df.rows[i]) idCol (toNumericCell (getCell (df.rows[i]) idCol)) := by
      show (coerceCol df idCol).rows[i] = _
      simp [coerceCol]
    rw [key]
    refine ⟨getCell_setCell_same _ _ _, ?_⟩
    intro c hc
    exact getCell_setCell_ne _ _ _ _ hc

/-- Witness for C6 (amended): the mutated identifier cell of the first row is
exactly the numeric coercion of the old value. -/
theorem merge_frame_effect_witness :
    getCell ((merge_monthly_and_dues exCampusBad "Class Instr ID"
          exMonthlyNull emptyTable).dfAfter.rows.get ⟨0, by decide⟩)
        "Class Instr ID"
      = toNumericCell (getCell (exCampusBad.rows.get ⟨0, by decide⟩)
          "Class Instr ID") :=
  ((merge_frame_effect exCampusBad "Class Instr ID" exMonthlyNull
      emptyTable).2 0 (by decide) (by decide)).1

/-- C10: when the loaded dues table contains at least one non-numeric or
missing UM ID (null after coercion), every output row whose own UM ID is
null is marked "Paid", because `isin` counts null as a member of a value set
containing null. -/
theorem null_id_paid_with_null_dues (df : Table) (idCol : String)
    (monthly dues : Table) (hne : dues.rows ≠ [])
    (hcol : "UM ID" ∈ dues.cols)
    (hnull : ∃ d ∈ dues.rows, toNumericCell (getCell d "UM ID") = Cell.null) :
    ∀ rr ∈ (merge_monthly_and_dues df idCol monthly dues).merged.rows,
      getCell rr "UM ID" = Cell.null →
      getCell rr "Dues Status" = Cell.str "Paid" := by
  intro rr hrr hnullrr
  rw [getCell_duesStatus_of_data df idCol monthly dues hne hcol rr hrr]
  have hany : (duesIds dues).any
      (fun d => cellKeyEq (getCell rr "UM ID") d) = true := by
    rw [List.any_eq_true]
    obtain ⟨d, hd, hdn⟩ := hnull
    refine ⟨Cell.null, ?_, ?_⟩
    · unfold duesIds
      rw [List.mem_map]
      exact ⟨d, hd, hdn⟩
    · rw [hnullrr]
      rfl
  rw [if_pos hany]

/-- Witness for C10: the null-identifier row retained via the null-key match
is marked "Paid" against a dues table whose only UM ID is non-numeric. -/
theorem null_id_paid_with_null_dues_witness :
    getCell [("Class Instr ID", Cell.null), ("UM ID", Cell.null),
             ("Job Title", Cell.str "LEO Lecturer I"),
             ("Dues Status", Cell.str "Paid")] "Dues Status"
      = Cell.str "Paid" :=
  null_id_paid_with_null_dues exCampusBad "Class Instr ID" exMonthlyNull
    exDuesNull (by decide) (by decide) (by decide) _ (by decide) (by decide)
